import Mathlib

/-!
Verification of the hyprvoice daemon and pipeline against its
natural-language specification.  The Go sources are shallowly embedded:
pure logic becomes Lean functions, the session worker becomes a function
over an explicit event list, collaborator behaviour (recorder,
transcriber, injection backends, process probes) is passed in as oracle
parameters, and Go `error` values become an explicit inductive type.
-/

namespace Hyprvoice

/-- Model of a Go `error` value: a plain message (`fmt.Errorf` without
`%w`), a wrapping error (`fmt.Errorf` with `%w` applied to a non-nil
error), or a wrapping of a nil error (`%w` applied to `nil`). -/
inductive GoErr where
  | msg (s : String)
  | wrap (s : String) (e : GoErr)
  | wrapNil (s : String)
deriving DecidableEq, Repr

/-- Pipeline status, from `internal/pipeline/pipeline.go`: the constants
`Idle`, `Recording`, `Transcribing`, `Injecting` of the string type
`Status`. -/
inductive Status where
  | idle
  | recording
  | transcribing
  | injecting
deriving DecidableEq, Repr

/-- The underlying string of a `Status` constant. -/
def Status.str : Status → String
  | .idle => "idle"
  | .recording => "recording"
  | .transcribing => "transcribing"
  | .injecting => "injecting"

/-! ## Injection subsystem (`internal/injection`) -/

/-- The three concrete injection backends built by `NewInjector`. -/
inductive BackendKind where
  | ydotool
  | wtype
  | clipboard
deriving DecidableEq, Repr

/-- The `Name()` method of each backend. -/
def backendName : BackendKind → String
  | .ydotool => "ydotool"
  | .wtype => "wtype"
  | .clipboard => "clipboard"

/-- The `switch name` in `NewInjector`: a known backend name maps to its
backend, anything else is skipped (`default: log ... skipping`). -/
def parseBackend (name : String) : Option BackendKind :=
  if name = "ydotool" then some .ydotool
  else if name = "wtype" then some .wtype
  else if name = "clipboard" then some .clipboard
  else none

/-- `injection.Config`: ordered backend-name list and the per-backend
timeouts.  `time.Duration` is modelled as `Int` nanoseconds. -/
structure InjectionConfig where
  backends : List String
  ydotoolTimeout : Int
  wtypeTimeout : Int
  clipboardTimeout : Int
deriving DecidableEq, Repr

/-- `(*injector).getTimeout`: timeout per backend name, defaulting to 5
seconds for an unknown name. -/
def getTimeout (cfg : InjectionConfig) (name : String) : Int :=
  if name = "ydotool" then cfg.ydotoolTimeout
  else if name = "wtype" then cfg.wtypeTimeout
  else if name = "clipboard" then cfg.clipboardTimeout
  else 5000000000

/-- The `injector` struct: the configuration and the built backend
chain. -/
structure Injector where
  config : InjectionConfig
  backends : List BackendKind
deriving DecidableEq, Repr

/-- `NewInjector`: build the backend chain from `config.Backends`,
skipping unknown names; if no valid backend remains, default to a single
clipboard backend. -/
def NewInjector (config : InjectionConfig) : Injector :=
  let backends := config.backends.filterMap parseBackend
  if backends.isEmpty then ⟨config, [.clipboard]⟩ else ⟨config, backends⟩

/-- Behaviour of the external backends: given the backend kind, the
text, the timeout and the window address, either succeed (`none`) or
fail with an error.  This stands for the child-process invocations of
`ydotool`/`wtype`/`wl-copy`, which are outside the core. -/
def BackendOracle : Type := BackendKind → String → Int → String → Option GoErr

/-- Result of one `Inject` call: the returned error (`none` = success)
together with the ordered trace of backend invocations, each recorded as
(backend name, timeout it was given). -/
structure InjectResult where
  result : Option GoErr
  calls : List (String × Int)
deriving DecidableEq, Repr

/-- The final error of `Inject` when the loop over backends exhausts:
`fmt.Errorf("all injection backends failed, last error: %w", lastErr)`. -/
def allFailedErr : Option GoErr → GoErr
  | some e => .wrap "all injection backends failed, last error" e
  | none => .wrapNil "all injection backends failed, last error"

/-- The `for _, backend := range i.backends` loop of `(*injector).Inject`,
threading `lastErr`.  Each backend is invoked with the timeout chosen by
`getTimeout`; the first success returns nil without trying the rest;
exhaustion returns the wrapped last error. -/
def injectLoop (oracle : BackendOracle) (cfg : InjectionConfig)
    (text windowAddress : String) :
    List BackendKind → Option GoErr → InjectResult
  | [], lastErr => ⟨some (allFailedErr lastErr), []⟩
  | b :: rest, _lastErr =>
    let t := getTimeout cfg (backendName b)
    match oracle b text t windowAddress with
    | none => ⟨none, [(backendName b, t)]⟩
    | some e =>
      let r := injectLoop oracle cfg text windowAddress rest (some e)
      ⟨r.result, (backendName b, t) :: r.calls⟩

/-- `(*injector).Inject`: reject empty text, otherwise run the backend
loop starting from a nil `lastErr`. -/
def Injector.inject (i : Injector) (oracle : BackendOracle)
    (text windowAddress : String) : InjectResult :=
  if text = "" then ⟨some (.msg "cannot inject empty text"), []⟩
  else injectLoop oracle i.config text windowAddress i.backends none

/-- The invocation trace that trying every backend of a chain in order
produces. -/
def chainCalls (cfg : InjectionConfig) (bs : List BackendKind) :
    List (String × Int) :=
  bs.map (fun b => (backendName b, getTimeout cfg (backendName b)))

/-! ## Configuration (`internal/config`) -/

/-- `recording.Config` fields as carried by `config.RecordingConfig`. -/
structure RecordingConfig where
  sampleRate : Int
  channels : Int
  format : String
  bufferSize : Int
  device : String
  channelBufferSize : Int
  timeout : Int
deriving DecidableEq, Repr

/-- `config.TranscriptionConfig`. -/
structure TranscriptionConfig where
  provider : String
  apiKey : String
  language : String
  model : String
deriving DecidableEq, Repr

/-- `config.NotificationsConfig`. -/
structure NotificationsConfig where
  enabled : Bool
  kind : String
deriving DecidableEq, Repr

/-- `config.ProcessingConfig`. -/
structure ProcessingConfig where
  mode : String
deriving DecidableEq, Repr

/-- `config.LLMConfig`. -/
structure LLMConfig where
  provider : String
  apiKey : String
  model : String
  level : String
  customPrompt : String
deriving DecidableEq, Repr

/-- `config.Config`, the full configuration snapshot. -/
structure Config where
  recording : RecordingConfig
  transcription : TranscriptionConfig
  injection : InjectionConfig
  notifications : NotificationsConfig
  processing : ProcessingConfig
  llm : LLMConfig
deriving DecidableEq, Repr

/-- `(*Config).ToInjectionConfig`: field-for-field copy into
`injection.Config`. -/
def Config.toInjectionConfig (c : Config) : InjectionConfig :=
  { backends := c.injection.backends
    ydotoolTimeout := c.injection.ydotoolTimeout
    wtypeTimeout := c.injection.wtypeTimeout
    clipboardTimeout := c.injection.clipboardTimeout }

/-- `(*Config).migrateInjectionMode`: map the legacy `injection.mode`
value to a backends array, defaulting for unknown or missing modes, and
default the ydotool timeout to 5 seconds when unset. -/
def migrateInjectionMode (c : Config) (mode : String) : Config :=
  let c1 :=
    if mode = "clipboard" then
      { c with injection := { c.injection with backends := ["clipboard"] } }
    else if mode = "type" then
      { c with injection := { c.injection with backends := ["wtype"] } }
    else if mode = "fallback" then
      { c with injection := { c.injection with backends := ["wtype", "clipboard"] } }
    else
      { c with injection := { c.injection with backends := ["ydotool", "wtype", "clipboard"] } }
  if c1.injection.ydotoolTimeout = 0 then
    { c1 with injection := { c1.injection with ydotoolTimeout := 5000000000 } }
  else c1

/-- The migration step of `config.Load`: when the decoded configuration
has an empty backends list, decode the legacy `injection.mode` field
(`""` when missing) and migrate it; otherwise leave the configuration
untouched. -/
def loadMigrate (c : Config) (legacyMode : String) : Config :=
  if c.injection.backends = [] then migrateInjectionMode c legacyMode else c

/-! ## Pipeline session worker (`internal/pipeline/pipeline.go`)

The worker spawned by `Run` is the goroutine `(*pipeline).run`.  Its
synchronous collaborator calls are answered by a `WorkerEnv` oracle, and
the supervision `select` loop consumes an explicit list of events: a
frame arrival, an error forwarded from the recorder or transcriber error
stream, an `Inject` action from the action mailbox, or context
cancellation (external `Stop` or the recording-timeout deadline). -/

/-- `pipeline.PipelineError`: titled error with human-readable message
and underlying cause, as sent to the error mailbox. -/
structure PipelineError where
  title : String
  message : String
  err : GoErr
deriving DecidableEq, Repr

/-- Observable state of one pipeline, as mutated by the session worker:
the status variable, the `running` flag, the bounded error mailbox
(capacity 10, new errors dropped when full), the captured window
address, and bookkeeping for collaborator shutdown and the single
injector invocation. -/
structure PipelineState where
  status : Status
  running : Bool
  errors : List PipelineError
  windowAddress : String
  recorderStopped : Bool
  transcriberStops : Nat
  injection : Option InjectResult
deriving DecidableEq, Repr

/-- Responses of the collaborators to the worker's synchronous calls:
recorder start, transcriber construction, transcriber start, the
transcriber `Stop` during injection, `GetFinalTranscription`, and the
behaviour of the injection backends.  `none` means the call succeeded. -/
structure WorkerEnv where
  recorderStart : Option GoErr
  newTranscriber : Option GoErr
  transcriberStop : Option GoErr
  transcriberStart : Option GoErr
  finalTranscription : Except GoErr String
  backends : BackendOracle

/-- Events consumed by the worker's supervision `select` loop. -/
inductive Ev where
  | frame
  | recErr (e : GoErr)
  | transErr (e : GoErr)
  | actionInject
  | ctxDone
deriving DecidableEq

/-- `(*pipeline).sendError`: non-blocking send into the capacity-10
error channel; when full the error is dropped with a log record. -/
def sendError (st : PipelineState) (title message : String) (e : GoErr) :
    PipelineState :=
  if st.errors.length < 10 then
    { st with errors := st.errors ++ [⟨title, message, e⟩] }
  else st

/-- The deferred cleanup registered first in `run`: clear the `running`
flag and set the status to `Idle`.  Being registered first, it executes
last on every exit path. -/
def deferExitBare (st : PipelineState) : PipelineState :=
  { st with running := false, status := .idle }

/-- Exit path after the recorder started: the deferred `recorder.Stop()`
runs, then the bare cleanup. -/
def deferExitRecorder (st : PipelineState) : PipelineState :=
  deferExitBare { st with recorderStopped := true }

/-- Exit path from inside the supervision loop: the deferred
transcriber `Stop` runs first (its error is deliberately swallowed, per
the comment in the source), then `recorder.Stop()`, then the bare
cleanup. -/
def deferExitLoop (st : PipelineState) : PipelineState :=
  deferExitRecorder { st with transcriberStops := st.transcriberStops + 1 }

/-- `(*pipeline).handleInjectAction`: ignore the action unless the
status is `Transcribing`; otherwise move to `Injecting`, stop the
recorder, stop the transcriber (emitting an error and returning early on
failure), retrieve the final transcription (likewise), build the
injector with `NewInjector` from the snapshot and invoke it with the
text and captured window address, emit an error on failure, and set the
status to `Idle`. -/
def handleInjectAction (env : WorkerEnv) (cfg : Config)
    (st : PipelineState) : PipelineState :=
  if st.status ≠ .transcribing then st
  else
    let st := { st with status := .injecting, recorderStopped := true }
    match env.transcriberStop with
    | some e =>
      sendError { st with transcriberStops := st.transcriberStops + 1 }
        "Transcription Error" "Failed to stop transcriber during injection" e
    | none =>
      let st := { st with transcriberStops := st.transcriberStops + 1 }
      match env.finalTranscription with
      | .error e =>
        sendError st "Transcription Error" "Failed to retrieve transcription" e
      | .ok text =>
        let injector := NewInjector cfg.toInjectionConfig
        let r := injector.inject env.backends text st.windowAddress
        let st := { st with injection := some r }
        match r.result with
        | some e =>
          { sendError st "Injection Error" "Failed to inject text" e with
              status := .idle }
        | none => { st with status := .idle }

/-- The supervision `select` loop of `run`: frames are drained,
forwarded recorder and transcriber errors go through `sendError`, an
`Inject` action is handled and the loop returns, and context
cancellation returns.  `none` means the supplied events were exhausted
without the loop exiting. -/
def runLoop (env : WorkerEnv) (cfg : Config) :
    List Ev → PipelineState → Option PipelineState
  | [], _ => none
  | ev :: evs, st =>
    match ev with
    | .frame => runLoop env cfg evs st
    | .recErr e =>
      runLoop env cfg evs (sendError st "Recording Error" "Recording stream error" e)
    | .transErr e =>
      runLoop env cfg evs
        (sendError st "Transcription Error" "Transcription processing error" e)
    | .actionInject => some (deferExitLoop (handleInjectAction env cfg st))
    | .ctxDone => some (deferExitLoop st)

/-- `(*pipeline).run`, the session worker: set `Recording`, start the
recorder, construct and start the transcriber (each failure emits an
error and exits through the deferred cleanups), set `Transcribing`, then
enter the supervision loop. -/
def run (env : WorkerEnv) (cfg : Config) (evs : List Ev)
    (st : PipelineState) : Option PipelineState :=
  let st := { st with status := .recording }
  match env.recorderStart with
  | some e =>
    some (deferExitBare
      (sendError st "Recording Error" "Failed to start recording" e))
  | none =>
    match env.newTranscriber with
    | some e =>
      some (deferExitRecorder
        (sendError st "Transcription Error" "Failed to create transcriber" e))
    | none =>
      let st := { st with status := .transcribing }
      match env.transcriberStart with
      | some e =>
        some (deferExitRecorder
          (sendError st "Transcription Error" "Failed to start transcriber" e))
      | none => runLoop env cfg evs st

/-- A fresh pipeline's observable state, as produced by `pipeline.New`
(status zero value reads as idle through the daemon, `running` false,
empty mailboxes) with the window address optionally set by
`SetWindowAddress` before `Run`. -/
def newPipelineState (windowAddress : String) : PipelineState :=
  { status := .idle
    running := false
    errors := []
    windowAddress := windowAddress
    recorderStopped := false
    transcriberStops := 0
    injection := none }

/-! ## Idempotent start (`(*pipeline).Run`) -/

/-- The start-relevant state of a pipeline: the atomic `running` flag,
how many session workers have been spawned, and whether a cancellation
handle with the recording-timeout deadline has been stored. -/
structure RunState where
  running : Bool
  workersSpawned : Nat
  cancelSet : Bool
deriving DecidableEq, Repr

/-- `(*pipeline).Run`: `running.CompareAndSwap(false, true)` guards the
whole body — when the swap fails the call returns immediately;
otherwise it derives the deadline context, stores the cancel handle and
spawns the session worker. -/
def Run (s : RunState) : RunState :=
  if s.running then s
  else { running := true, workersSpawned := s.workersSpawned + 1, cancelSet := true }

/-! ## Daemon state and command handler (`internal/daemon/daemon.go`) -/

/-- The daemon supervisor's mutable state relevant to the embedded
operations: the configuration manager's current snapshot, the runtime
mode override (`""` = unset), the active pipeline's status (`none` when
the pipeline reference is nil), and the ordered list of configuration
snapshots captured by the sessions created so far (each `pipeline.New`
stores the snapshot it was given). -/
structure DaemonState where
  mgrConfig : Config
  modeOverride : String
  pipelineStatus : Option Status
  sessions : List Config
deriving DecidableEq, Repr

/-- `(*Daemon).status`: `Idle` when the pipeline reference is nil,
otherwise the pipeline's status. -/
def daemonStatus (d : DaemonState) : Status :=
  d.pipelineStatus.getD .idle

/-- `(*Daemon).getEffectiveMode`: the runtime override when set,
otherwise the processing mode of the current snapshot. -/
def getEffectiveMode (d : DaemonState) : String :=
  if d.modeOverride ≠ "" then d.modeOverride else d.mgrConfig.processing.mode

/-- `(*Daemon).setModeOverride`. -/
def setModeOverride (d : DaemonState) (mode : String) : DaemonState :=
  { d with modeOverride := mode }

/-- `(*Daemon).getConfigWithModeOverride`: the current snapshot, or —
when an override is set — a copy of it with the processing mode
replaced.  The copy (`cfgCopy := *cfg`) leaves the manager's snapshot
untouched. -/
def getConfigWithModeOverride (d : DaemonState) : Config :=
  if d.modeOverride ≠ "" then
    { d.mgrConfig with processing := { mode := d.modeOverride } }
  else d.mgrConfig

/-- The `Idle` arm of `(*Daemon).toggle`: build the snapshot with the
override applied and create a pipeline capturing it (`pipeline.New`
stores the snapshot for the whole session). -/
def toggleFromIdle (d : DaemonState) : DaemonState :=
  { d with sessions := d.sessions ++ [getConfigWithModeOverride d] }

/-- Modelled from the spec: `config.Manager` is not among the sources;
§4.3 specifies that a successful reload atomically replaces the whole
snapshot (readers never observe in-place mutation), so a reload is
replacement of the manager's snapshot value. -/
def reloadConfig (d : DaemonState) (c : Config) : DaemonState :=
  { d with mgrConfig := c }

/-- Semantics of `bufio.ReadString` with delimiter a newline over the
bytes a connection delivers: the data up to and including the first
newline with no error, or — when the input ends first — all the data
together with a read error (`io.EOF`).  The error flag is `true` on
failure.  An empty line with no error is impossible: the reader returns
a nil error only when it found the delimiter. -/
def readLineGo : List Char → List Char × Bool
  | [] => ([], true)
  | c :: rest =>
    if c = '\n' then ([c], false)
    else
      let r := readLineGo rest
      (c :: r.1, r.2)

/-- A single-quote character, kept out of string literals. -/
def squote : String := String.mk [Char.ofNat 39]

/-- Two lowercase hex digits of a byte value. -/
def hexByte (n : Nat) : String :=
  String.mk [Nat.digitChar (n / 16 % 16), Nat.digitChar (n % 16)]

/-- Model of the Go `%q` verb applied to an ASCII byte: a single-quoted
character literal, with the Go escapes for control characters, the
backslash and the quote, printable characters verbatim, and a
two-digit hex escape otherwise. -/
def goQuoteChar (c : Char) : String :=
  let body :=
    if c.toNat = 7 then "\\a"
    else if c.toNat = 8 then "\\b"
    else if c.toNat = 9 then "\\t"
    else if c.toNat = 10 then "\\n"
    else if c.toNat = 11 then "\\v"
    else if c.toNat = 12 then "\\f"
    else if c.toNat = 13 then "\\r"
    else if c.toNat = 92 then "\\\\"
    else if c.toNat = 39 then "\\" ++ squote
    else if 32 ≤ c.toNat ∧ c.toNat ≤ 126 then String.mk [c]
    else "\\x" ++ hexByte c.toNat
  squote ++ body ++ squote

/-- ASCII whitespace recognised by `strings.TrimSpace` (plus the two
Latin-1 space runes). -/
def isSpaceGo (c : Char) : Bool :=
  c.toNat = 32 || c.toNat = 9 || c.toNat = 10 || c.toNat = 11 ||
  c.toNat = 12 || c.toNat = 13 || c.toNat = 133 || c.toNat = 160

/-- `strings.TrimSpace` on a character list. -/
def trimSpaceGo (cs : List Char) : List Char :=
  ((cs.dropWhile isSpaceGo).reverse.dropWhile isSpaceGo).reverse

/-- The response line `(*Daemon).handle` writes to a connection, as a
function of the daemon state and the bytes the client delivered.
`protoVer` stands for `bus.ProtoVer`, whose definition is not among the
sources (the spec says only that `v` reports the protocol version
string).  Read failure (modelled as end of input before a newline, the
`io.EOF` case) answers `ERR read_error`; an empty line answers
`ERR empty`; otherwise the first byte selects the command, with the
mode sub-protocol on `m` and a quoted-byte `ERR unknown` fallback. -/
def handleResponse (protoVer : String) (d : DaemonState)
    (input : List Char) : String :=
  let r := readLineGo input
  if r.2 then "ERR read_error: EOF\n"
  else
    match r.1 with
    | [] => "ERR empty\n"
    | c :: rest =>
      if c = 't' then "OK toggled\n"
      else if c = 'c' then "OK cancelled\n"
      else if c = 's' then "STATUS status=" ++ (daemonStatus d).str ++ "\n"
      else if c = 'v' then "STATUS proto=" ++ protoVer ++ "\n"
      else if c = 'q' then "OK quitting\n"
      else if c = 'm' then
        let modeArg := trimSpaceGo rest
        match modeArg with
        | [] => "MODE mode=" ++ getEffectiveMode d ++ "\n"
        | a :: arg =>
          if a = ':' then
            let newMode := String.mk arg
            if newMode ≠ "raw" ∧ newMode ≠ "llm" then
              "ERR invalid_mode=" ++ newMode ++ "\n"
            else "OK mode=" ++ newMode ++ "\n"
          else "ERR invalid_mode_command\n"
      else "ERR unknown=" ++ goQuoteChar c ++ "\n"

/-! ## Lockfile check (`internal/bus`) -/

/-- Go `strconv.Atoi`: an optional sign followed by one or more decimal
digits and nothing else, within the 64-bit int range; anything else is a
parse error (`none`). -/
def goAtoi (s : String) : Option Int :=
  let cs := s.data
  let signDigits : Bool × List Char :=
    match cs with
    | '+' :: rest => (false, rest)
    | '-' :: rest => (true, rest)
    | _ => (false, cs)
  let neg := signDigits.1
  let ds := signDigits.2
  if ds = [] then none
  else if ds.all Char.isDigit then
    let n : Nat := ds.foldl (fun a c => a * 10 + (c.toNat - 48)) 0
    let v : Int := if neg then -(n : Int) else (n : Int)
    if v < -(2 ^ 63 : Int) ∨ (2 ^ 63 : Int) - 1 < v then none else some v
  else none

/-- Outcome of reading the lockfile: absent (`os.IsNotExist`), contents
read, or some other read failure. -/
inductive LockfileRead where
  | notExist
  | contents (s : String)
  | failed (e : GoErr)
deriving DecidableEq, Repr

/-- Result of `(*pidManager).checkExisting`: clear to start (recording
whether a stale lockfile was removed), already running with the live
pid, or a propagated read error. -/
inductive CheckResult where
  | clear (removedStale : Bool)
  | alreadyRunning (pid : Int)
  | readFailed (e : GoErr)
deriving DecidableEq, Repr

/-- `(*pidManager).checkExisting`: absent lockfile is clear; an
unparseable pid removes the stale file and is clear; a parseable pid
whose process fails the zero-signal probe removes the stale file and is
clear; a reachable process fails with the daemon-already-running error
naming the pid.  `alive` is the zero-signal probe
(`FindProcess` + `Signal(0)`), an external-world oracle. -/
def checkExisting (r : LockfileRead) (alive : Int → Bool) : CheckResult :=
  match r with
  | .notExist => .clear false
  | .failed e => .readFailed (.wrap "error reading PID file" e)
  | .contents s =>
    match goAtoi s with
    | none => .clear true
    | some pid => if alive pid then .alreadyRunning pid else .clear true

/-! ## Shared example values used by the witnesses -/

/-- A concrete configuration snapshot matching the documented defaults. -/
def cfgEx : Config :=
  { recording := ⟨16000, 1, "s16", 8192, "", 30, 300000000000⟩
    transcription := ⟨"openai", "", "", "whisper-1"⟩
    injection := ⟨["ydotool", "wtype", "clipboard"], 5000000000, 5000000000, 3000000000⟩
    notifications := ⟨true, "desktop"⟩
    processing := ⟨"raw"⟩
    llm := ⟨"openai", "", "gpt-4o-mini", "moderate", ""⟩ }

/-- A concrete daemon state: default snapshot, no override, nil pipeline. -/
def dEx : DaemonState := ⟨cfgEx, "", none, []⟩

/-- A backend oracle where ydotool fails, wtype succeeds and clipboard
fails. -/
def orcEx : BackendOracle := fun b _ _ _ =>
  match b with
  | .ydotool => some (.msg "ydotool failed")
  | .wtype => none
  | .clipboard => some (.msg "wl-copy failed")

/-- A backend oracle where every backend fails. -/
def orcFail : BackendOracle := fun b _ _ _ => some (.msg (backendName b ++ " failed"))

/-- A collaborator environment where every synchronous call succeeds. -/
def envEx : WorkerEnv :=
  { recorderStart := none
    newTranscriber := none
    transcriberStop := none
    transcriberStart := none
    finalTranscription := .ok "hello world"
    backends := orcEx }

/-! ## Helper lemmas -/

/-- Any state produced by the supervision loop has the `running` flag
cleared and status `Idle`: both terminal branches exit through the
deferred cleanups. -/
theorem runLoop_exits_idle (env : WorkerEnv) (cfg : Config) :
    ∀ (evs : List Ev) (st st1 : PipelineState),
      runLoop env cfg evs st = some st1 →
      st1.running = false ∧ st1.status = .idle
  | [], _, _, h => by simp [runLoop] at h
  | ev :: evs, st, st1, h => by
    cases ev with
    | frame => exact runLoop_exits_idle env cfg evs st st1 h
    | recErr e => exact runLoop_exits_idle env cfg evs _ st1 h
    | transErr e => exact runLoop_exits_idle env cfg evs _ st1 h
    | actionInject =>
      simp only [runLoop, Option.some.injEq] at h
      subst h
      exact ⟨rfl, rfl⟩
    | ctxDone =>
      simp only [runLoop, Option.some.injEq] at h
      subst h
      exact ⟨rfl, rfl⟩

/-- When every event of `evs` is a frame, the supervision loop drains
them without touching the state and exits through the cancellation
branch on the final `ctxDone`. -/
theorem runLoop_frames_ctxDone (env : WorkerEnv) (cfg : Config) :
    ∀ (evs : List Ev) (st : PipelineState),
      evs.all (fun e => e == Ev.frame) = true →
      runLoop env cfg (evs ++ [Ev.ctxDone]) st = some (deferExitLoop st)
  | [], _, _ => rfl
  | ev :: evs, st, h => by
    rw [List.all_cons, Bool.and_eq_true] at h
    have he : ev = Ev.frame := by
      have := h.1
      cases ev <;> simp_all
    subst he
    exact runLoop_frames_ctxDone env cfg evs st h.2

/-- The result of the backend loop is never the nil-wrapping final
error as long as the chain is non-empty or a previous failure has been
recorded. -/
theorem injectLoop_ne_wrapNil (oracle : BackendOracle) (cfg : InjectionConfig)
    (text w : String) :
    ∀ (bs : List BackendKind) (lastErr : Option GoErr) (s : String),
      (bs = [] → lastErr ≠ none) →
      (injectLoop oracle cfg text w bs lastErr).result ≠ some (.wrapNil s)
  | [], lastErr, s, h => by
    cases lastErr with
    | none => exact absurd rfl (h rfl)
    | some e => simp [injectLoop, allFailedErr]
  | b :: rest, lastErr, s, h => by
    simp only [injectLoop]
    cases ho : oracle b text (getTimeout cfg (backendName b)) w with
    | none => simp
    | some e =>
      simpa using injectLoop_ne_wrapNil oracle cfg text w rest (some e) s
        (fun _ => by simp)

/-- Backend loop, first-success case: with every backend of `pre`
failing and `b` succeeding, the loop invokes exactly `pre` then `b`,
each with its configured timeout, and returns success without touching
`post`. -/
theorem injectLoop_firstSuccess (oracle : BackendOracle) (cfg : InjectionConfig)
    (text w : String) :
    ∀ (pre : List BackendKind) (b : BackendKind) (post : List BackendKind)
      (lastErr : Option GoErr),
      (∀ x ∈ pre, (oracle x text (getTimeout cfg (backendName x)) w).isSome = true) →
      oracle b text (getTimeout cfg (backendName b)) w = none →
      injectLoop oracle cfg text w (pre ++ b :: post) lastErr =
        ⟨none, chainCalls cfg pre ++ [(backendName b, getTimeout cfg (backendName b))]⟩
  | [], b, post, lastErr, _, hb => by
    simp [injectLoop, hb, chainCalls]
  | x :: pre, b, post, lastErr, hpre, hb => by
    obtain ⟨e, he⟩ := Option.isSome_iff_exists.mp (hpre x (by simp))
    have ih := injectLoop_firstSuccess oracle cfg text w pre b post (some e)
      (fun y hy => hpre y (by simp [hy])) hb
    simp [injectLoop, he, ih, chainCalls]

/-- Backend loop, exhaustion case: with every backend failing, the loop
invokes the whole chain in order and wraps the last backend's error. -/
theorem injectLoop_allFail (oracle : BackendOracle) (cfg : InjectionConfig)
    (text w : String) :
    ∀ (front : List BackendKind) (bLast : BackendKind) (eLast : GoErr)
      (lastErr : Option GoErr),
      (∀ x ∈ front, (oracle x text (getTimeout cfg (backendName x)) w).isSome = true) →
      oracle bLast text (getTimeout cfg (backendName bLast)) w = some eLast →
      injectLoop oracle cfg text w (front ++ [bLast]) lastErr =
        ⟨some (.wrap "all injection backends failed, last error" eLast),
         chainCalls cfg (front ++ [bLast])⟩
  | [], bLast, eLast, lastErr, _, hb => by
    simp [injectLoop, hb, allFailedErr, chainCalls]
  | x :: front, bLast, eLast, lastErr, hpre, hb => by
    obtain ⟨e, he⟩ := Option.isSome_iff_exists.mp (hpre x (by simp))
    have ih := injectLoop_allFail oracle cfg text w front bLast eLast (some e)
      (fun y hy => hpre y (by simp [hy])) hb
    simp [injectLoop, he, ih, chainCalls]

/-! ## Claim theorems -/

/-- C1.  On every exit path of the session worker — recorder start
failure, transcriber construction or start failure, Inject handling,
and cancellation/deadline — the worker ends with the `running` flag
cleared and the pipeline state `Idle`. -/
theorem worker_exit_clears_running_and_idle (env : WorkerEnv) (cfg : Config)
    (evs : List Ev) (st0 st1 : PipelineState)
    (h : run env cfg evs st0 = some st1) :
    st1.running = false ∧ st1.status = .idle := by
  unfold run at h
  cases h1 : env.recorderStart with
  | some e =>
    simp only [h1, Option.some.injEq] at h
    subst h
    exact ⟨rfl, rfl⟩
  | none =>
    simp only [h1] at h
    cases h2 : env.newTranscriber with
    | some e =>
      simp only [h2, Option.some.injEq] at h
      subst h
      exact ⟨rfl, rfl⟩
    | none =>
      simp only [h2] at h
      cases h3 : env.transcriberStart with
      | some e =>
        simp only [h3, Option.some.injEq] at h
        subst h
        exact ⟨rfl, rfl⟩
      | none =>
        simp only [h3] at h
        exact runLoop_exits_idle env cfg evs _ st1 h

/-- Witness for C1: a session cancelled immediately terminates with the
flag cleared and status idle. -/
theorem worker_exit_clears_running_and_idle_witness :
    (deferExitLoop { newPipelineState "" with status := .transcribing }).running = false ∧
    (deferExitLoop { newPipelineState "" with status := .transcribing }).status = .idle :=
  worker_exit_clears_running_and_idle envEx cfgEx [Ev.ctxDone]
    (newPipelineState "") _ rfl

/-- C2.  An `Inject` action handled while the pipeline state is not
`Transcribing` is ignored: the handler returns with the pipeline state
unchanged and performs no transition and no injection. -/
theorem inject_ignored_outside_transcribing (env : WorkerEnv) (cfg : Config)
    (st : PipelineState) (h : st.status ≠ .transcribing) :
    handleInjectAction env cfg st = st := by
  simp [handleInjectAction, h]

/-- Witness for C2: an `Inject` action seen in the `Recording` state
leaves the state untouched. -/
theorem inject_ignored_outside_transcribing_witness :
    handleInjectAction envEx cfgEx { newPipelineState "" with status := .recording } =
      { newPipelineState "" with status := .recording } :=
  inject_ignored_outside_transcribing envEx cfgEx _ (by decide)

/-- C4.  `Run` is idempotent: starting from a non-running pipeline, two
consecutive `Run` calls spawn exactly one session worker, and the
second call is a no-op. -/
theorem Run_idempotent_single_worker (s : RunState) (h : s.running = false) :
    (Run (Run s)).workersSpawned = s.workersSpawned + 1 ∧
    Run (Run s) = Run s := by
  simp [Run, h]

/-- Witness for C4 on a freshly constructed pipeline. -/
theorem Run_idempotent_single_worker_witness :
    (Run (Run ⟨false, 0, false⟩)).workersSpawned = 0 + 1 ∧
    Run (Run ⟨false, 0, false⟩) = Run ⟨false, 0, false⟩ :=
  Run_idempotent_single_worker ⟨false, 0, false⟩ rfl

/-- C5.  `checkExisting`: an absent lockfile is clear; unparseable
contents remove the stale file and are clear; a parseable pid whose
process fails the zero-signal probe removes the stale file and is
clear; a reachable pid fails with the already-running error naming that
pid. -/
theorem checkExisting_cases (alive : Int → Bool) (s : String) :
    checkExisting .notExist alive = .clear false ∧
    (goAtoi s = none → checkExisting (.contents s) alive = .clear true) ∧
    (∀ pid, goAtoi s = some pid → alive pid = false →
      checkExisting (.contents s) alive = .clear true) ∧
    (∀ pid, goAtoi s = some pid → alive pid = true →
      checkExisting (.contents s) alive = .alreadyRunning pid) := by
  refine ⟨rfl, fun h => ?_, fun pid h ha => ?_, fun pid h ha => ?_⟩
  · simp [checkExisting, h]
  · simp [checkExisting, h, ha]
  · simp [checkExisting, h, ha]

/-- Witness for C5: all four cases at concrete lockfile contents and
probe behaviour. -/
theorem checkExisting_cases_witness :
    checkExisting .notExist (fun _ => true) = .clear false ∧
    checkExisting (.contents "abc") (fun _ => true) = .clear true ∧
    checkExisting (.contents "123") (fun _ => false) = .clear true ∧
    checkExisting (.contents "123") (fun p => decide (p = 123)) = .alreadyRunning 123 :=
  ⟨(checkExisting_cases (fun _ => true) "abc").1,
   (checkExisting_cases (fun _ => true) "abc").2.1 (by decide),
   (checkExisting_cases (fun _ => false) "123").2.2.1 123 (by decide) rfl,
   (checkExisting_cases (fun p => decide (p = 123)) "123").2.2.2 123 (by decide) (by decide)⟩

/-- C7.  Setting the runtime mode override changes only snapshots built
for sessions created afterwards: neither an override nor a reload
touches the snapshot captured by an already-created session, and a
session created after a non-empty override is set captures a snapshot
whose processing mode is the override. -/
theorem mode_override_only_new_sessions (d : DaemonState) (m : String) (c : Config) :
    (setModeOverride d m).sessions = d.sessions ∧
    (reloadConfig d c).sessions = d.sessions ∧
    (toggleFromIdle (setModeOverride d m)).sessions =
      d.sessions ++ [getConfigWithModeOverride (setModeOverride d m)] ∧
    (m ≠ "" → (getConfigWithModeOverride (setModeOverride d m)).processing.mode = m) := by
  refine ⟨rfl, rfl, rfl, fun hm => ?_⟩
  simp [getConfigWithModeOverride, setModeOverride, hm]

/-- Witness for C7: after `m:llm`, a newly created session captures
mode `llm` while the in-flight session list is untouched. -/
theorem mode_override_only_new_sessions_witness :
    (getConfigWithModeOverride (setModeOverride dEx "llm")).processing.mode = "llm" ∧
    (setModeOverride dEx "llm").sessions = dEx.sessions :=
  ⟨(mode_override_only_new_sessions dEx "llm" cfgEx).2.2.2 (by decide),
   (mode_override_only_new_sessions dEx "llm" cfgEx).1⟩

/-- C8.  A session whose recording deadline fires while the loop is
draining frames terminates exactly through the cancellation branch: the
final state is `Idle` with the flag cleared, the collaborators stopped,
and the error mailbox exactly as it was — no error is emitted for the
deadline itself. -/
theorem deadline_terminates_idle_without_error (env : WorkerEnv) (cfg : Config)
    (evs : List Ev) (st0 : PipelineState)
    (h1 : env.recorderStart = none) (h2 : env.newTranscriber = none)
    (h3 : env.transcriberStart = none)
    (hf : evs.all (fun e => e == Ev.frame) = true) :
    run env cfg (evs ++ [Ev.ctxDone]) st0 =
      some { st0 with
              status := .idle
              running := false
              recorderStopped := true
              transcriberStops := st0.transcriberStops + 1 } := by
  unfold run
  simp only [h1, h2, h3]
  rw [runLoop_frames_ctxDone env cfg evs _ hf]
  rfl

/-- Witness for C8: two frames then the deadline, from a fresh session
state. -/
theorem deadline_terminates_idle_without_error_witness :
    run envEx cfgEx ([Ev.frame, Ev.frame] ++ [Ev.ctxDone]) (newPipelineState "") =
      some { newPipelineState "" with
              status := .idle
              running := false
              recorderStopped := true
              transcriberStops := (newPipelineState "").transcriberStops + 1 } :=
  deadline_terminates_idle_without_error envEx cfgEx [Ev.frame, Ev.frame]
    (newPipelineState "") rfl rfl rfl (by decide)

/-- The backend list produced by the migration `switch`, unaffected by
the trailing ydotool-timeout defaulting step. -/
theorem migrateInjectionMode_backends (c : Config) (mode : String) :
    (migrateInjectionMode c mode).injection.backends =
      if mode = "clipboard" then ["clipboard"]
      else if mode = "type" then ["wtype"]
      else if mode = "fallback" then ["wtype", "clipboard"]
      else ["ydotool", "wtype", "clipboard"] := by
  have hkeep : ∀ c1 : Config,
      (if c1.injection.ydotoolTimeout = 0 then
        { c1 with injection := { c1.injection with ydotoolTimeout := 5000000000 } }
      else c1).injection.backends = c1.injection.backends := by
    intro c1; split <;> rfl
  unfold migrateInjectionMode
  simp only [hkeep]
  by_cases h1 : mode = "clipboard"
  · simp [h1]
  · by_cases h2 : mode = "type"
    · simp [h1, h2]
    · by_cases h3 : mode = "fallback"
      · simp [h1, h2, h3]
      · simp [h1, h2, h3]

/-- C9.  When the loaded configuration has an empty backend list, the
legacy `injection.mode` migrates: `clipboard` to `[clipboard]`, `type`
to `[wtype]`, `fallback` to `[wtype, clipboard]`, and any unknown or
missing mode (decoded as the empty string) to the default
`[ydotool, wtype, clipboard]`. -/
theorem migrate_injection_mode_mapping (c : Config) (mode : String)
    (h : c.injection.backends = []) :
    (loadMigrate c "clipboard").injection.backends = ["clipboard"] ∧
    (loadMigrate c "type").injection.backends = ["wtype"] ∧
    (loadMigrate c "fallback").injection.backends = ["wtype", "clipboard"] ∧
    (mode ≠ "clipboard" → mode ≠ "type" → mode ≠ "fallback" →
      (loadMigrate c mode).injection.backends = ["ydotool", "wtype", "clipboard"]) := by
  refine ⟨?_, ?_, ?_, fun hm1 hm2 hm3 => ?_⟩
  · simp [loadMigrate, h, migrateInjectionMode_backends]
  · simp [loadMigrate, h, migrateInjectionMode_backends]
  · simp [loadMigrate, h, migrateInjectionMode_backends]
  · simp [loadMigrate, h, migrateInjectionMode_backends, hm1, hm2, hm3]

/-- Witness for C9: a configuration decoded with an empty backend list,
and the unknown mode `"weird"`. -/
theorem migrate_injection_mode_mapping_witness :
    (loadMigrate { cfgEx with injection := ⟨[], 0, 5000000000, 3000000000⟩ } "clipboard").injection.backends = ["clipboard"] ∧
    (loadMigrate { cfgEx with injection := ⟨[], 0, 5000000000, 3000000000⟩ } "weird").injection.backends = ["ydotool", "wtype", "clipboard"] :=
  ⟨(migrate_injection_mode_mapping { cfgEx with injection := ⟨[], 0, 5000000000, 3000000000⟩ } "weird" rfl).1,
   (migrate_injection_mode_mapping { cfgEx with injection := ⟨[], 0, 5000000000, 3000000000⟩ } "weird" rfl).2.2.2
     (by decide) (by decide) (by decide)⟩

/-- C6.  For every injector: empty text is rejected without invoking
any backend; otherwise the configured backends are tried in order, each
with its own configured timeout, stopping at the first success without
trying later backends; and when every backend fails the returned error
wraps the last backend's error. -/
theorem inject_backend_order (i : Injector) (oracle : BackendOracle)
    (text w : String) :
    (text = "" →
      i.inject oracle text w = ⟨some (.msg "cannot inject empty text"), []⟩) ∧
    (∀ (pre : List BackendKind) (b : BackendKind) (post : List BackendKind),
      text ≠ "" → i.backends = pre ++ b :: post →
      (∀ x ∈ pre, (oracle x text (getTimeout i.config (backendName x)) w).isSome = true) →
      oracle b text (getTimeout i.config (backendName b)) w = none →
      i.inject oracle text w =
        ⟨none, chainCalls i.config pre ++
          [(backendName b, getTimeout i.config (backendName b))]⟩) ∧
    (∀ (front : List BackendKind) (bLast : BackendKind) (eLast : GoErr),
      text ≠ "" → i.backends = front ++ [bLast] →
      (∀ x ∈ front, (oracle x text (getTimeout i.config (backendName x)) w).isSome = true) →
      oracle bLast text (getTimeout i.config (backendName bLast)) w = some eLast →
      i.inject oracle text w =
        ⟨some (.wrap "all injection backends failed, last error" eLast),
         chainCalls i.config (front ++ [bLast])⟩) := by
  refine ⟨fun h => by simp [Injector.inject, h], ?_, ?_⟩
  · intro pre b post ht hbs hpre hb
    simp only [Injector.inject, if_neg ht, hbs]
    exact injectLoop_firstSuccess oracle i.config text w pre b post none hpre hb
  · intro front bLast eLast ht hbs hpre hb
    simp only [Injector.inject, if_neg ht, hbs]
    exact injectLoop_allFail oracle i.config text w front bLast eLast none hpre hb

/-- Witness for C6: the default chain with ydotool failing and wtype
succeeding invokes exactly ydotool then wtype; with all backends
failing it wraps the clipboard error; empty text invokes nothing. -/
theorem inject_backend_order_witness :
    Injector.inject (NewInjector cfgEx.toInjectionConfig) orcEx "" "0xabc" =
      ⟨some (.msg "cannot inject empty text"), []⟩ ∧
    Injector.inject (NewInjector cfgEx.toInjectionConfig) orcEx "hello" "0xabc" =
      ⟨none, [("ydotool", 5000000000), ("wtype", 5000000000)]⟩ ∧
    Injector.inject (NewInjector cfgEx.toInjectionConfig) orcFail "hello" "" =
      ⟨some (.wrap "all injection backends failed, last error" (.msg "clipboard failed")),
       [("ydotool", 5000000000), ("wtype", 5000000000), ("clipboard", 3000000000)]⟩ := by
  refine ⟨(inject_backend_order (NewInjector cfgEx.toInjectionConfig) orcEx "" "0xabc").1 rfl,
    ?_, ?_⟩
  · have h := (inject_backend_order (NewInjector cfgEx.toInjectionConfig) orcEx
      "hello" "0xabc").2.1 [.ydotool] .wtype [.clipboard]
      (by decide) (by decide) (by decide) rfl
    exact h.trans (by decide)
  · have h := (inject_backend_order (NewInjector cfgEx.toInjectionConfig) orcFail
      "hello" "").2.2 [.ydotool, .wtype] .clipboard (.msg "clipboard failed")
      (by decide) (by decide) (by decide) rfl
    exact h.trans (by decide)

/-- The chain built by `NewInjector` is never empty: either some
configured names are valid, or the clipboard default is used. -/
theorem NewInjector_backends_ne_nil (icfg : InjectionConfig) :
    (NewInjector icfg).backends ≠ [] := by
  by_cases he : (icfg.backends.filterMap parseBackend).isEmpty
  · simp [NewInjector, he]
  · simp only [NewInjector, if_neg he]
    simpa [List.isEmpty_iff] using he

/-- C10.  `NewInjector` always yields a non-empty backend chain:
unknown names are skipped; when no valid name remains the chain is
exactly one clipboard backend; and consequently `Inject` never returns
the all-backends-failed error wrapping a nil error. -/
theorem newInjector_nonempty_chain (icfg : InjectionConfig) :
    (NewInjector icfg).backends ≠ [] ∧
    (icfg.backends.filterMap parseBackend = [] →
      (NewInjector icfg).backends = [.clipboard]) ∧
    (icfg.backends.filterMap parseBackend ≠ [] →
      (NewInjector icfg).backends = icfg.backends.filterMap parseBackend) ∧
    (∀ (oracle : BackendOracle) (text w s : String),
      ((NewInjector icfg).inject oracle text w).result ≠ some (.wrapNil s)) := by
  refine ⟨NewInjector_backends_ne_nil icfg, fun h => by simp [NewInjector, h],
    fun h => ?_, fun oracle text w s => ?_⟩
  · cases hl : icfg.backends.filterMap parseBackend with
    | nil => exact absurd hl h
    | cons a l => simp [NewInjector, hl]
  · unfold Injector.inject
    by_cases ht : text = ""
    · simp [ht]
    · simp only [if_neg ht]
      exact injectLoop_ne_wrapNil oracle (NewInjector icfg).config text w
        (NewInjector icfg).backends none s
        (fun hbs => absurd hbs (NewInjector_backends_ne_nil icfg))

/-- Witness for C10: a configuration with only an unknown backend name
falls back to the single clipboard backend, and the all-failed error is
a real wrap, not a nil wrap. -/
theorem newInjector_nonempty_chain_witness :
    (NewInjector ⟨["bogus"], 1, 2, 3⟩).backends = [.clipboard] ∧
    ((NewInjector ⟨["bogus"], 1, 2, 3⟩).inject orcFail "hello" "").result ≠
      some (.wrapNil "all injection backends failed, last error") :=
  ⟨(newInjector_nonempty_chain ⟨["bogus"], 1, 2, 3⟩).2.1 (by decide),
   (newInjector_nonempty_chain ⟨["bogus"], 1, 2, 3⟩).2.2.2 orcFail "hello" ""
     "all injection backends failed, last error"⟩

/-- The line reader succeeds whenever the input contains a final
newline. -/
theorem readLineGo_newline_ok :
    ∀ cs : List Char, (readLineGo (cs ++ ['\n'])).2 = false
  | [] => rfl
  | c :: cs => by
    simp only [List.cons_append, readLineGo]
    split
    · rfl
    · simpa using readLineGo_newline_ok cs

/-- A non-empty newline-terminated input reads as a line led by its
first byte, with no error. -/
theorem readLineGo_cons (c : Char) (rest : List Char) :
    ∃ l, readLineGo (c :: (rest ++ ['\n'])) = (c :: l, false) := by
  by_cases h : c = '\n'
  · subst h
    exact ⟨[], rfl⟩
  · refine ⟨(readLineGo (rest ++ ['\n'])).1, ?_⟩
    simp only [readLineGo, if_neg h]
    rw [readLineGo_newline_ok rest]

/-- C3 counterexample: a connection whose request line is empty — no
bytes at all, or just the newline terminator — is not answered with
`ERR empty`.  No data yields the read-error response, and a bare
newline is dispatched on its first byte and answered `ERR unknown`. -/
theorem empty_request_line_not_err_empty :
    handleResponse "1" dEx [] = "ERR read_error: EOF\n" ∧
    handleResponse "1" dEx ['\n'] = "ERR unknown=" ++ goQuoteChar '\n' ++ "\n" ∧
    handleResponse "1" dEx [] ≠ "ERR empty\n" ∧
    handleResponse "1" dEx ['\n'] ≠ "ERR empty\n" := by
  refine ⟨rfl, rfl, by decide, by decide⟩

/-- C3 amended.  A connection that ends before any newline (including
an empty request) is answered `ERR read_error`; a request line whose
first byte is not a known command byte — including the bare-newline
line — is answered `ERR unknown=` followed by the Go-quoted byte.  The
`ERR empty` reply would require the line reader to return an empty line
without an error, which it never does. -/
theorem handle_read_and_unknown_responses (protoVer : String) (d : DaemonState) :
    handleResponse protoVer d [] = "ERR read_error: EOF\n" ∧
    handleResponse protoVer d ['\n'] = "ERR unknown=" ++ goQuoteChar '\n' ++ "\n" ∧
    (∀ (c : Char) (rest : List Char),
      c ∉ (['t', 'c', 's', 'v', 'q', 'm'] : List Char) →
      handleResponse protoVer d (c :: (rest ++ ['\n'])) =
        "ERR unknown=" ++ goQuoteChar c ++ "\n") := by
  refine ⟨rfl, rfl, fun c rest hc => ?_⟩
  obtain ⟨l, hl⟩ := readLineGo_cons c rest
  have h1 : c ≠ 't' := fun h => hc (by simp [h])
  have h2 : c ≠ 'c' := fun h => hc (by simp [h])
  have h3 : c ≠ 's' := fun h => hc (by simp [h])
  have h4 : c ≠ 'v' := fun h => hc (by simp [h])
  have h5 : c ≠ 'q' := fun h => hc (by simp [h])
  have h6 : c ≠ 'm' := fun h => hc (by simp [h])
  simp [handleResponse, hl, h1, h2, h3, h4, h5, h6]

/-- Witness for the amended C3: the unknown command byte `x`. -/
theorem handle_read_and_unknown_responses_witness :
    handleResponse "1" dEx ('x' :: ([] ++ ['\n'])) =
      "ERR unknown=" ++ goQuoteChar 'x' ++ "\n" :=
  (handle_read_and_unknown_responses "1" dEx).2.2 'x' [] (by decide)

end Hyprvoice
